import Mathlib

/-!
Verification development for the AEC payload generator
(`aec_payload_generator.py`).

The generator is embedded shallowly:

* Python dicts become association lists `List (String × JVal)` over a
  JSON-like value type `JVal`; Python dicts preserve insertion order, and
  so do the association lists here.
* Python `random.*` draws are determinized into explicit oracle
  parameters: each asset (resp. relationship draw) receives a record of
  the values the random source would have produced for it.  The UUID
  assembly of `generate_uuid` is pure randomness and is folded into the
  oracle as an opaque string.
* Python float arithmetic is modelled as exact rational arithmetic (`ℚ`),
  and `int(x)` truncation of a nonnegative real product becomes natural
  floor division.
* Python decimal formatting (`f"{i:06d}"`, `str(i)`) is modelled by a
  structurally recursive digit expansion so that everything evaluates
  inside the kernel.
-/

namespace AEC

/-- Little-endian decimal digits of `n`, with explicit fuel so the
recursion is structural (fuel `n` always suffices). -/
def decDigits : ℕ → ℕ → List ℕ
  | _, 0 => []
  | 0, _ + 1 => []
  | fuel + 1, n + 1 => (n + 1) % 10 :: decDigits fuel ((n + 1) / 10)

/-- Value of a little-endian decimal digit list. -/
def valOfDigits : List ℕ → ℕ
  | [] => 0
  | d :: rest => d + 10 * valOfDigits rest

/-- The character for a decimal digit. -/
def charOfDigit (d : ℕ) : Char := Char.ofNat (48 + d)

/-- Decimal character expansion of `n`, most significant digit first
(empty for `n = 0`, as in the digit lists backing Python formatting of
positive widths). -/
def charsOfNat (n : ℕ) : List Char := ((decDigits n n).map charOfDigit).reverse

/-- Python `str(n)` for a natural number. -/
def natStr (n : ℕ) : String :=
  if n = 0 then "0" else String.mk (charsOfNat n)

/-- Character list of Python `f"{n:06d}"`: zero-padded to width 6. -/
def padChars (n : ℕ) : List Char :=
  List.replicate (6 - (charsOfNat n).length) '0' ++ charsOfNat n

/-- Python `f"{n:06d}"`. -/
def pad6 (n : ℕ) : String := String.mk (padChars n)

/-- Parse a decimal character list (most significant first) back to a
natural number; leading zeros are ignored by the fold. -/
def toNum (cs : List Char) : ℕ :=
  cs.foldl (fun a c => a * 10 + (c.toNat - 48)) 0

theorem valOfDigits_decDigits (fuel : ℕ) :
    ∀ n, n ≤ fuel → valOfDigits (decDigits fuel n) = n := by
  induction fuel with
  | zero =>
      intro n hn
      interval_cases n
      rfl
  | succ f ih =>
      intro n hn
      match n with
      | 0 => rfl
      | m + 1 =>
          have hdivlt : (m + 1) / 10 < m + 1 := Nat.div_lt_self (by omega) (by omega)
          have hdiv : (m + 1) / 10 ≤ f := by omega
          show (m + 1) % 10 + 10 * valOfDigits (decDigits f ((m + 1) / 10)) = m + 1
          rw [ih _ hdiv]
          omega

theorem decDigits_lt_ten (fuel : ℕ) :
    ∀ n, ∀ d ∈ decDigits fuel n, d < 10 := by
  induction fuel with
  | zero =>
      intro n d hd
      match n with
      | 0 => simp [decDigits] at hd
      | _ + 1 => simp [decDigits] at hd
  | succ f ih =>
      intro n d hd
      match n with
      | 0 => simp [decDigits] at hd
      | m + 1 =>
          simp only [decDigits, List.mem_cons] at hd
          rcases hd with h | h
          · omega
          · exact ih _ _ h

theorem toNat_charOfDigit {d : ℕ} (hd : d < 10) : (charOfDigit d).toNat - 48 = d := by
  interval_cases d <;> rfl

theorem isDigit_charOfDigit {d : ℕ} (hd : d < 10) : (charOfDigit d).isDigit = true := by
  interval_cases d <;> rfl

theorem foldl_toNum_rev_map (l : List ℕ) (hl : ∀ d ∈ l, d < 10) :
    ∀ a : ℕ,
      ((l.map charOfDigit).reverse).foldl (fun a c => a * 10 + (c.toNat - 48)) a =
        a * 10 ^ l.length + valOfDigits l := by
  induction l with
  | nil => intro a; simp [valOfDigits]
  | cons d t ih =>
      intro a
      have hd : d < 10 := hl d (List.mem_cons_self _ _)
      have ht : ∀ x ∈ t, x < 10 := fun x hx => hl x (List.mem_cons_of_mem _ hx)
      simp only [List.map_cons, List.reverse_cons, List.foldl_append, List.foldl_cons,
        List.foldl_nil, ih ht a, valOfDigits, List.length_cons]
      rw [toNat_charOfDigit hd]
      ring

theorem toNum_charsOfNat (n : ℕ) : toNum (charsOfNat n) = n := by
  unfold toNum charsOfNat
  rw [foldl_toNum_rev_map _ (decDigits_lt_ten n n)]
  simp [valOfDigits_decDigits n n le_rfl]

theorem foldl_toNum_replicate_zero (k : ℕ) :
    (List.replicate k '0').foldl (fun a c => a * 10 + (c.toNat - 48)) 0 = 0 := by
  induction k with
  | zero => rfl
  | succ m ih => simpa [List.replicate_succ] using ih

theorem toNum_padChars (n : ℕ) : toNum (padChars n) = n := by
  have h0 := foldl_toNum_replicate_zero (6 - (charsOfNat n).length)
  have h1 := toNum_charsOfNat n
  unfold toNum at h1
  unfold toNum padChars
  rw [List.foldl_append, h0, h1]

theorem isDigit_of_mem_padChars (n : ℕ) : ∀ c ∈ padChars n, c.isDigit = true := by
  intro c hc
  unfold padChars at hc
  rcases List.mem_append.mp hc with h | h
  · rw [List.eq_of_mem_replicate h]; rfl
  · unfold charsOfNat at h
    rw [List.mem_reverse, List.mem_map] at h
    obtain ⟨d, hd, rfl⟩ := h
    exact isDigit_charOfDigit (decDigits_lt_ten n n d hd)

theorem padChars_injective {m n : ℕ} (h : padChars m = padChars n) : m = n := by
  have := toNum_padChars m
  rw [h, toNum_padChars] at this
  omega

/-- JSON-like document values (Python dict / list / scalar). Objects are
ordered association lists, matching Python dict insertion order. -/
inductive JVal where
  | str (s : String)
  | num (q : ℚ)
  | bool (b : Bool)
  | arr (l : List JVal)
  | obj (l : List (String × JVal))

/-- A top-level document: an ordered association list of fields. -/
abbrev Doc := List (String × JVal)

/-- The eight asset types of `AECPayloadGenerator.ASSET_TYPES`. -/
inductive AssetTag where
  | walls
  | doors
  | windows
  | rooms
  | mepComponents
  | structuralElements
  | furniture
  | fixtures
deriving DecidableEq, Fintype

/-- `ASSET_TYPES[t]['count']`: the default count acting as the weight of
each type. -/
def typeCount : AssetTag → ℕ
  | .walls => 2300
  | .doors => 400
  | .windows => 600
  | .rooms => 850
  | .mepComponents => 2000
  | .structuralElements => 1150
  | .furniture => 2300
  | .fixtures => 400

/-- The insertion order of `ASSET_TYPES`, which drives both
`generate_assets` iteration and `len(self.ASSET_TYPES)`. -/
def tagOrder : List AssetTag :=
  [.walls, .doors, .windows, .rooms, .mepComponents, .structuralElements,
   .furniture, .fixtures]

/-- `total_default = sum(config['count'] for config in ASSET_TYPES.values())`. -/
def totalDefault : ℕ := (tagOrder.map typeCount).sum

theorem totalDefault_eq : totalDefault = 10000 := by decide

/-- Per-type allocated count of `generate_assets`:
`count = int(total_assets * (config['count'] / total_default))`, raised to
1 when it is zero and `total_assets >= len(ASSET_TYPES)`.  The float
product is modelled as exact arithmetic, so `int(...)` is floor
division. -/
def allocCount (total : ℕ) (t : AssetTag) : ℕ :=
  let c := total * typeCount t / totalDefault
  if c = 0 ∧ tagOrder.length ≤ total then 1 else c

/-- The sum of the allocated per-type counts of one run. -/
def allocTotal (total : ℕ) : ℕ := (tagOrder.map (allocCount total)).sum

theorem div_add_div_le_add_div (a b d : ℕ) : a / d + b / d ≤ (a + b) / d := by
  rcases Nat.eq_zero_or_pos d with h | h
  · subst h; simp
  · rw [Nat.le_div_iff_mul_le h]
    calc (a / d + b / d) * d = a / d * d + b / d * d := by ring
      _ ≤ a + b := Nat.add_le_add (Nat.div_mul_le_self a d) (Nat.div_mul_le_self b d)

theorem sum_map_div_le (l : List ℕ) (d : ℕ) : (l.map (· / d)).sum ≤ l.sum / d := by
  induction l with
  | nil => simp
  | cons x t ih =>
      simp only [List.map_cons, List.sum_cons]
      calc x / d + (t.map (· / d)).sum ≤ x / d + t.sum / d := by omega
        _ ≤ (x + t.sum) / d := div_add_div_le_add_div _ _ _

/-- The floored proportional counts alone sum to at most the requested
total. -/
theorem sum_floor_le (n : ℕ) :
    (tagOrder.map (fun t => n * typeCount t / totalDefault)).sum ≤ n := by
  have h1 : (tagOrder.map (fun t => n * typeCount t / totalDefault)).sum =
      ((tagOrder.map (fun t => n * typeCount t)).map (· / totalDefault)).sum := by
    rw [List.map_map]
    rfl
  have h2 := sum_map_div_le (tagOrder.map (fun t => n * typeCount t)) totalDefault
  have h3 : (tagOrder.map (fun t => n * typeCount t)).sum = n * totalDefault := by
    rw [totalDefault]
    exact List.sum_map_mul_left tagOrder typeCount n
  have h4 : n * totalDefault / totalDefault = n :=
    Nat.mul_div_cancel n (by rw [totalDefault_eq]; omega)
  rw [h1]
  rw [h3, h4] at h2
  exact h2

/-- The number of types whose floored proportional count is zero (the
types that are eligible for the floor-to-1 raise). -/
def zeroFloorCount (n : ℕ) : ℕ :=
  (tagOrder.map (fun t => if n * typeCount t / totalDefault = 0 then 1 else 0)).sum

theorem allocCount_le (n : ℕ) (t : AssetTag) :
    allocCount n t ≤ n * typeCount t / totalDefault +
      (if n * typeCount t / totalDefault = 0 then 1 else 0) := by
  unfold allocCount
  by_cases h : n * typeCount t / totalDefault = 0 <;>
    by_cases h2 : tagOrder.length ≤ n <;>
      simp [h, h2]

theorem sum_allocCount_le (n : ℕ) (l : List AssetTag) :
    (l.map (allocCount n)).sum ≤
      (l.map (fun t => n * typeCount t / totalDefault)).sum +
        (l.map (fun t => if n * typeCount t / totalDefault = 0 then 1 else 0)).sum := by
  induction l with
  | nil => simp
  | cons x t ih =>
      simp only [List.map_cons, List.sum_cons]
      have hx := allocCount_le n x
      omega

/-! ### Static catalogue data -/

def emptyStr : String := ""

def LEVELS : List String :=
  ["Level 1", "Level 2", "Level 3", "Level 4", "Level 5"]

def PHASES : List String :=
  ["New Construction", "Existing", "Demolition", "Future"]

/-- `ASSET_TYPES[t]['type']`. -/
def wireType : AssetTag → String
  | .walls => "autodesk.revit:wall-2.0.0"
  | .doors => "autodesk.revit:door-2.0.0"
  | .windows => "autodesk.revit:window-2.0.0"
  | .rooms => "autodesk.revit:room-2.0.0"
  | .mepComponents => "autodesk.mep:hvac-terminal-1.0.0"
  | .structuralElements => "autodesk.revit:structural-framing-2.0.0"
  | .furniture => "autodesk.revit:furniture-2.0.0"
  | .fixtures => "autodesk.revit:lighting-fixture-2.0.0"

/-- `ASSET_TYPES[t]['category']`. -/
def categoryOf : AssetTag → String
  | .walls => "OST_Walls"
  | .doors => "OST_Doors"
  | .windows => "OST_Windows"
  | .rooms => "OST_Rooms"
  | .mepComponents => "OST_DuctTerminal"
  | .structuralElements => "OST_StructuralFraming"
  | .furniture => "OST_Furniture"
  | .fixtures => "OST_LightingFixtures"

/-- `ASSET_TYPES[t]['element_id_start']`. -/
def elementIdStart : AssetTag → ℕ
  | .walls => 316000
  | .doors => 318000
  | .windows => 319000
  | .rooms => 320000
  | .mepComponents => 325000
  | .structuralElements => 330000
  | .furniture => 340000
  | .fixtures => 350000

/-- The dict key of each entry of `ASSET_TYPES` (used as the id prefix of
the generic builder). -/
def tagKey : AssetTag → String
  | .walls => "walls"
  | .doors => "doors"
  | .windows => "windows"
  | .rooms => "rooms"
  | .mepComponents => "mepComponents"
  | .structuralElements => "structuralElements"
  | .furniture => "furniture"
  | .fixtures => "fixtures"

/-- `ASSET_TYPES[t]['families']` (rooms have none). -/
def familiesOf : AssetTag → List (String × List String)
  | .walls =>
      [("Exterior Wall", ["Brick on CMU", "Concrete - 12\"", "Metal Panel"]),
       ("Interior Wall", ["Generic - 6\"", "Generic - 4\"", "Gypsum - 5\""])]
  | .doors =>
      [("Single-Flush", ["36\" x 84\"", "32\" x 80\"", "30\" x 80\""]),
       ("Double-Flush", ["72\" x 84\"", "60\" x 84\""])]
  | .windows =>
      [("Fixed", ["48\" x 72\"", "36\" x 60\"", "24\" x 48\""]),
       ("Casement", ["36\" x 48\"", "24\" x 36\""])]
  | .rooms => []
  | .mepComponents =>
      [("VAV Terminal", ["VAV w/ Reheat - 350 CFM", "VAV w/ Reheat - 500 CFM"]),
       ("Diffuser", ["4-Way - 24x24", "2-Way - 24x12"])]
  | .structuralElements =>
      [("W-Wide Flange", ["W12X26", "W14X30", "W16X40"]),
       ("HSS-Hollow Structural Section", ["HSS8X8X1/2", "HSS6X6X3/8"])]
  | .furniture =>
      [("Desk", ["60\" x 30\"", "72\" x 36\"", "48\" x 24\""]),
       ("Chair", ["Task Chair", "Executive Chair", "Guest Chair"]),
       ("Table", ["Conference - 96\" x 48\"", "Break Room - 48\" x 30\""])]
  | .fixtures =>
      [("Troffer Light", ["2x4 LED - 40W", "2x2 LED - 28W"]),
       ("Pendant", ["LED - 15W", "LED - 25W"])]

def roomDepartments : List String :=
  ["Administration", "Engineering", "Sales", "Operations", "IT"]

def roomOccupancies : List String :=
  ["Office", "Conference", "Storage", "Lobby", "Break Room"]

/-! ### Randomness oracle and small helpers -/

/-- `random.choice(l)`: the oracle supplies `k`, the element chosen is
`l[k % len(l)]` (the default is never read for a nonempty list). -/
def pickL {α : Type} (l : List α) (k : ℕ) (d : α) : α :=
  l.getD (k % l.length) d

theorem pickL_mem {α : Type} (l : List α) (k : ℕ) (d : α) (h : l ≠ []) :
    pickL l k d ∈ l := by
  unfold pickL
  have hlen : 0 < l.length := List.length_pos.mpr h
  have hk : k % l.length < l.length := Nat.mod_lt _ hlen
  rw [List.getD_eq_getElem l d hk]
  exact List.getElem_mem hk

/-- One asset's worth of random draws, determinized: the values the
shared random source would produce while building this asset.
`uid` stands for the `generate_uuid` output, whose hex groups are pure
randomness. -/
structure Draws where
  famPick : ℕ
  varPick : ℕ
  levelPick : ℕ
  phasePick : ℕ
  deptPick : ℕ
  occPick : ℕ
  boolPick : Bool
  natPick : ℕ
  u1 : ℚ
  u2 : ℚ
  u3 : ℚ
  u4 : ℚ
  p1 : ℚ × ℚ × ℚ
  p2 : ℚ × ℚ × ℚ
  uid : String

def AssetOracle := AssetTag → ℕ → Draws

/-- Python `round(x, 2)` modelled on exact rationals. -/
def round2 (q : ℚ) : ℚ := ((round (q * 100) : ℤ) : ℚ) / 100

/-- `generate_point3d`: three uniform draws, each rounded to 2 decimals. -/
def jPoint (p : ℚ × ℚ × ℚ) : JVal :=
  .arr [.num (round2 p.1), .num (round2 p.2.1), .num (round2 p.2.2)]

/-- Python substring test `pat in s`. -/
def strContains (s pat : String) : Bool :=
  s.data.tails.any (fun suf => pat.data.isPrefixOf suf)

/-- `level.lower().replace(' ', '-')` (per-character, so the order of the
two Python passes does not matter). -/
def lowerDash (s : String) : String :=
  String.mk (s.data.map (fun c => if c = ' ' then '-' else c.toLower))

/-- `float(label.split('"')[0]) / 12`: the catalogue size labels start
with a decimal inch count directly followed by a double quote, so the
slice before the first quote is a plain numeral and `float` of it is
exact. -/
def parseWidth (label : String) : ℚ :=
  ((toNum (label.data.takeWhile (fun c => c ≠ '"')) : ℕ) : ℚ) / 12

/-- Python `s.rstrip('s')`. -/
def rstripS (s : String) : String :=
  String.mk ((s.data.reverse.dropWhile (fun c => c = 's')).reverse)

/-- `property_key` of the generic builder. -/
def propertyKey (t : AssetTag) : String :=
  if t = .mepComponents then "hvacProperties"
  else if t = .structuralElements then "structuralProperties"
  else rstripS (tagKey t) ++ "Properties"

/-- `property_key.replace('Properties', '-properties')`: each key ends in
the single occurrence of `"Properties"` (10 characters). -/
def genericPropsTypeId (key : String) : String :=
  "autodesk.revit:" ++ String.mk (key.data.take (key.data.length - 10)) ++
    "-properties-1.0.0"

/-! ### Leaf helpers for the nested component trees -/

def leafS (v : String) : JVal :=
  .obj [("typeId", .str ("String")), ("value", .str v)]

def leafF (v : ℚ) : JVal :=
  .obj [("typeId", .str ("Float64")), ("value", .num v)]

def leafB (v : Bool) : JVal :=
  .obj [("typeId", .str ("Bool")), ("value", .bool v)]

def leafI (v : ℕ) : JVal :=
  .obj [("typeId", .str ("Int32")), ("value", .num (v : ℚ))]

def leafP (v : JVal) : JVal :=
  .obj [("typeId", .str ("Point3d")), ("value", v)]

/-- The identical top-level envelope every asset builder emits:
`modelId`, `id`, `type`, `space`, `attributes.system.uniqueId`,
`components.insertions`. -/
def assetEnvelope (mid aid ty levelSuffix uid : String) (comps : JVal) : Doc :=
  [("modelId", .str mid), ("id", .str aid), ("type", .str ty),
   ("space", .obj [("id", .str ("space-building-" ++ levelSuffix))]),
   ("attributes", .obj [("system", .obj [("uniqueId", .str uid)])]),
   ("components", .obj [("insertions", comps)])]

/-- The `properties` property-group wrapper shared by the builders. -/
def propsGroup (ins : List (String × JVal)) : JVal :=
  .obj [("typeId", .str ("autodesk.aec:component.propertyGroup-1.1.0")),
        ("staticChildren", .obj [
          ("properties", .obj [
            ("typeId", .str ("map<autodesk.parameter:parameter-2.0.0>")),
            ("insertions", .obj ins)])])]

/-- One sized parameter entry of a property bag (`area`, `volume`,
`width`, `height`), with its wire type id and unit. -/
def paramEntry (tyId : String) (v : JVal) (unit : String) : JVal :=
  .obj [("typeId", .str tyId),
        ("staticChildren", .obj [("value", v), ("unit", leafS unit)])]

/-! ### Asset builders -/

/-- `generate_wall`. -/
def generateWall (mid : String) (i : ℕ) (d : Draws) : Doc :=
  let fam := pickL (familiesOf .walls) d.famPick (emptyStr, [])
  let family := fam.1
  let typeName := pickL fam.2 d.varPick emptyStr
  let level := pickL LEVELS d.levelPick emptyStr
  let xStart := d.u1
  let yStart := d.u2
  let length := d.u3
  let height := d.u4
  let thickness : ℚ := if strContains family ("Interior") then 1/2 else 3/4
  let area := length * height
  let volume := area * thickness
  assetEnvelope mid ("wall-" ++ pad6 i) (wireType .walls) (lowerDash level) d.uid
    (.obj [
      ("metadata", .obj [
        ("typeId", .str ("autodesk.revit:element-metadata-1.0.0")),
        ("staticChildren", .obj [
          ("elementId", leafS (natStr (elementIdStart .walls + i))),
          ("categoryId", leafS (categoryOf .walls)),
          ("phaseCreated", leafS (pickL PHASES d.phasePick emptyStr))])]),
      ("wallProperties", .obj [
        ("typeId", .str ("autodesk.revit:wall-properties-1.0.0")),
        ("staticChildren", .obj [
          ("familyName", leafS family),
          ("typeName", leafS typeName),
          ("level", leafS level),
          ("roomBounding", leafB d.boolPick)])]),
      ("geometry", .obj [
        ("typeId", .str ("autodesk.geometry:bounds-1.0.0")),
        ("staticChildren", .obj [
          ("minPoint", leafP (.arr [.num xStart, .num yStart, .num 0])),
          ("maxPoint", leafP (.arr [.num (xStart + length),
            .num (yStart + thickness), .num height]))])]),
      ("properties", propsGroup [
        ("area", paramEntry ("autodesk.revit.parameter:area-1.0.0")
          (leafF (round2 area)) ("sqft")),
        ("volume", paramEntry ("autodesk.revit.parameter:volume-1.0.0")
          (leafF (round2 volume)) ("cuft"))])])

/-- `generate_door`. -/
def generateDoor (mid : String) (i : ℕ) (d : Draws) : Doc :=
  let fam := pickL (familiesOf .doors) d.famPick (emptyStr, [])
  let family := fam.1
  let typeName := pickL fam.2 d.varPick emptyStr
  let level := pickL LEVELS d.levelPick emptyStr
  let width := parseWidth typeName
  let height : ℚ := 7
  assetEnvelope mid ("door-" ++ pad6 i) (wireType .doors) (lowerDash level) d.uid
    (.obj [
      ("metadata", .obj [
        ("typeId", .str ("autodesk.revit:element-metadata-1.0.0")),
        ("staticChildren", .obj [
          ("elementId", leafS (natStr (elementIdStart .doors + i))),
          ("categoryId", leafS (categoryOf .doors))])]),
      ("doorProperties", .obj [
        ("typeId", .str ("autodesk.revit:door-properties-1.0.0")),
        ("staticChildren", .obj [
          ("familyName", leafS family),
          ("typeName", leafS typeName),
          ("level", leafS level),
          ("roomBounding", leafB false)])]),
      ("geometry", .obj [
        ("typeId", .str ("autodesk.geometry:bounds-1.0.0")),
        ("staticChildren", .obj [
          ("minPoint", leafP (.arr [.num 0, .num 0, .num 0])),
          ("maxPoint", leafP (.arr [.num width, .num (17/100), .num height])),
          ("insertionPoint", leafP (jPoint d.p1))])]),
      ("properties", propsGroup [
        ("width", paramEntry ("autodesk.revit.parameter:width-1.0.0")
          (leafF (round2 width)) ("ft")),
        ("height", paramEntry ("autodesk.revit.parameter:height-1.0.0")
          (leafF height) ("ft"))])])

/-- `generate_window`. -/
def generateWindow (mid : String) (i : ℕ) (d : Draws) : Doc :=
  let fam := pickL (familiesOf .windows) d.famPick (emptyStr, [])
  let family := fam.1
  let typeName := pickL fam.2 d.varPick emptyStr
  let level := pickL LEVELS d.levelPick emptyStr
  let width := parseWidth typeName
  let height : ℚ := 6
  assetEnvelope mid ("window-" ++ pad6 i) (wireType .windows) (lowerDash level) d.uid
    (.obj [
      ("metadata", .obj [
        ("typeId", .str ("autodesk.revit:element-metadata-1.0.0")),
        ("staticChildren", .obj [
          ("elementId", leafS (natStr (elementIdStart .windows + i))),
          ("categoryId", leafS (categoryOf .windows))])]),
      ("windowProperties", .obj [
        ("typeId", .str ("autodesk.revit:window-properties-1.0.0")),
        ("staticChildren", .obj [
          ("familyName", leafS family),
          ("typeName", leafS typeName),
          ("level", leafS level),
          ("roomBounding", leafB false)])]),
      ("geometry", .obj [
        ("typeId", .str ("autodesk.geometry:bounds-1.0.0")),
        ("staticChildren", .obj [
          ("minPoint", leafP (.arr [.num 0, .num 0, .num 0])),
          ("maxPoint", leafP (.arr [.num width, .num (17/100), .num height])),
          ("insertionPoint", leafP (jPoint d.p1))])]),
      ("properties", propsGroup [
        ("width", paramEntry ("autodesk.revit.parameter:width-1.0.0")
          (leafF (round2 width)) ("ft")),
        ("height", paramEntry ("autodesk.revit.parameter:height-1.0.0")
          (leafF height) ("ft"))])])

/-- `generate_room`. -/
def generateRoom (mid : String) (i : ℕ) (d : Draws) : Doc :=
  let level := pickL LEVELS d.levelPick emptyStr
  let department := pickL roomDepartments d.deptPick emptyStr
  let occupancyType := pickL roomOccupancies d.occPick emptyStr
  let width := d.u1
  let depth := d.u2
  let height := d.u3
  let area := width * depth
  let volume := area * height
  assetEnvelope mid ("room-" ++ pad6 i) (wireType .rooms) (lowerDash level) d.uid
    (.obj [
      ("metadata", .obj [
        ("typeId", .str ("autodesk.revit:element-metadata-1.0.0")),
        ("staticChildren", .obj [
          ("elementId", leafS (natStr (elementIdStart .rooms + i))),
          ("categoryId", leafS (categoryOf .rooms)),
          ("level", leafS level)])]),
      ("roomProperties", .obj [
        ("typeId", .str ("autodesk.revit:room-properties-1.0.0")),
        ("staticChildren", .obj [
          ("name", leafS (occupancyType ++ " " ++ natStr (100 + i))),
          ("number", leafS (natStr (100 + i))),
          ("department", leafS department),
          ("occupancyType", leafS occupancyType),
          ("occupantLoad", leafI d.natPick)])]),
      ("geometry", .obj [
        ("typeId", .str ("autodesk.geometry:bounds-1.0.0")),
        ("staticChildren", .obj [
          ("minPoint", leafP (jPoint d.p1)),
          ("maxPoint", leafP (.arr [.num width, .num depth, .num height]))])]),
      ("properties", propsGroup [
        ("area", paramEntry ("autodesk.revit.parameter:area-1.0.0")
          (leafF (round2 area)) ("sqft")),
        ("volume", paramEntry ("autodesk.revit.parameter:volume-1.0.0")
          (leafF (round2 volume)) ("cuft"))])])

/-- `generate_generic_asset` (MEP, structural, furniture, fixtures). -/
def generateGeneric (t : AssetTag) (mid : String) (i : ℕ) (d : Draws) : Doc :=
  let fam := pickL (familiesOf t) d.famPick (emptyStr, [])
  let family := fam.1
  let typeName := pickL fam.2 d.varPick emptyStr
  let level := pickL LEVELS d.levelPick emptyStr
  let propKey := propertyKey t
  assetEnvelope mid (tagKey t ++ "-" ++ pad6 i) (wireType t) (lowerDash level) d.uid
    (.obj [
      ("metadata", .obj [
        ("typeId", .str ("autodesk.revit:element-metadata-1.0.0")),
        ("staticChildren", .obj [
          ("elementId", leafS (natStr (elementIdStart t + i))),
          ("categoryId", leafS (categoryOf t))])]),
      (propKey, .obj [
        ("typeId", .str (genericPropsTypeId propKey)),
        ("staticChildren", .obj [
          ("familyName", leafS family),
          ("typeName", leafS typeName),
          ("level", leafS level)])]),
      ("geometry", .obj [
        ("typeId", .str ("autodesk.geometry:bounds-1.0.0")),
        ("staticChildren", .obj [
          ("minPoint", leafP (jPoint d.p1)),
          ("maxPoint", leafP (jPoint d.p2))])]),
      ("properties", propsGroup [])])

/-- The type dispatch of the `generate_assets` inner loop. -/
def buildAsset (mid : String) (t : AssetTag) (i : ℕ) (d : Draws) : Doc :=
  match t with
  | .walls => generateWall mid i d
  | .doors => generateDoor mid i d
  | .windows => generateWindow mid i d
  | .rooms => generateRoom mid i d
  | .mepComponents => generateGeneric .mepComponents mid i d
  | .structuralElements => generateGeneric .structuralElements mid i d
  | .furniture => generateGeneric .furniture mid i d
  | .fixtures => generateGeneric .fixtures mid i d

/-- `generate_assets`: per type (in catalogue order), the allocated count
of assets, built at consecutive indices. -/
def generateAssets (total : ℕ) (o : AssetOracle) (mid : String) : List Doc :=
  tagOrder.flatMap (fun t =>
    (List.range (allocCount total t)).map (fun i => buildAsset mid t i (o t i)))

/-- The id prefix each builder bakes into `asset['id']` (singular for the
four dedicated builders, the dict key for the generic one). -/
def idPrefix : AssetTag → String
  | .walls => "wall"
  | .doors => "door"
  | .windows => "window"
  | .rooms => "room"
  | .mepComponents => "mepComponents"
  | .structuralElements => "structuralElements"
  | .furniture => "furniture"
  | .fixtures => "fixtures"

/-- `self.asset_ids_by_type[t]` after `generate_assets`: the id of every
asset generated for type `t`, in generation order. -/
def poolOf (total : ℕ) (t : AssetTag) : List String :=
  (List.range (allocCount total t)).map (fun i => idPrefix t ++ "-" ++ pad6 i)

/-! ### Field lookup on documents -/

/-- Python `doc[k]` on our ordered association lists (first match). -/
def lookupKey (doc : Doc) (k : String) : Option JVal :=
  (doc.find? (fun kv => kv.1 == k)).map (fun kv => kv.2)

/-- Total lookup with an inert default (only applied to documents that
contain the key). -/
def jGet (doc : Doc) (k : String) : JVal :=
  (lookupKey doc k).getD (.str emptyStr)

/-- Lookup inside a nested object field. -/
def jGet2 (doc : Doc) (k k2 : String) : JVal :=
  match jGet doc k with
  | .obj l => jGet l k2
  | _ => .str emptyStr

/-- Lookup two objects deep. -/
def jGet3 (doc : Doc) (k k2 k3 : String) : JVal :=
  match jGet2 doc k k2 with
  | .obj l => jGet l k3
  | _ => .str emptyStr

/-- Lookup along a path of object keys. -/
def jPath (v : JVal) : List String → JVal
  | [] => v
  | k :: ks =>
      match v with
      | .obj l => jPath (jGet l k) ks
      | _ => .str emptyStr

/-! ### Relationship generation -/

/-- One entry of `rel_configs` in `generate_relationships`. The weight
only drives `random.choices`, which is folded into the oracle's category
pick. -/
structure RelConfig where
  ctype : String
  fromTypes : List AssetTag
  toTypes : List AssetTag
  relType : String

/-- The four relationship categories of `generate_relationships`. -/
def relConfigs : List RelConfig :=
  [⟨"hosted", [.doors, .windows], [.walls], "autodesk.revit:hosted-1.0.0"⟩,
   ⟨"roomBounding", [.rooms], [.walls], "autodesk.revit:roomBounding-1.0.0"⟩,
   ⟨"serves", [.mepComponents], [.rooms], "autodesk.mep:serves-1.0.0"⟩,
   ⟨"contains", [.rooms], [.furniture, .fixtures], "autodesk.revit:contains-1.0.0"⟩]

/-- One relationship draw's worth of random values: the weighted category
choice, the uniform from/to type choices, the uniform endpoint id
choices, and the insertion point sampled for `hosted`. -/
structure RelDraws where
  cfgPick : ℕ
  ftPick : ℕ
  ttPick : ℕ
  faPick : ℕ
  taPick : ℕ
  ip : ℚ × ℚ × ℚ

def RelOracle := ℕ → RelDraws

def defaultRelConfig : RelConfig := ⟨emptyStr, [], [], emptyStr⟩

/-- The category `random.choices(rel_configs, weights=...)` picks for one
draw (its weighted randomness is the oracle's pick). -/
def chosenCfg (d : RelDraws) : RelConfig :=
  pickL relConfigs d.cfgPick defaultRelConfig

/-- `from_type = random.choice(config['from_types'])`. -/
def chosenFromType (d : RelDraws) : AssetTag :=
  pickL (chosenCfg d).fromTypes d.ftPick .walls

/-- `to_type = random.choice(config['to_types'])`. -/
def chosenToType (d : RelDraws) : AssetTag :=
  pickL (chosenCfg d).toTypes d.ttPick .walls

/-- The relationship document literal of `generate_relationships`,
including the insertion point appended for the `hosted` category. -/
def relDoc (mid : String) (cfg : RelConfig) (i : ℕ) (fa ta : String)
    (ip : ℚ × ℚ × ℚ) : Doc :=
  [("modelId", .str mid),
   ("id", .str ("rel-" ++ cfg.ctype ++ "-" ++ pad6 i)),
   ("type", .str cfg.relType),
   ("from", .obj [("assetId", .str fa)]),
   ("to", .obj [("assetId", .str ta)]),
   ("attributes", .obj [
     ("application", .obj (
       [("relationshipType", .str cfg.ctype)] ++
       (if cfg.ctype = "hosted" then [("insertionPoint", jPoint ip)] else [])))])]

/-- One iteration of the `generate_relationships` loop: `none` when the
chosen from- or to-type's id pool is empty (the draw is skipped). -/
def drawRel (pools : AssetTag → List String) (mid : String) (i : ℕ)
    (d : RelDraws) : Option Doc :=
  let cfg := chosenCfg d
  let ft := chosenFromType d
  let tt := chosenToType d
  if pools ft = [] ∨ pools tt = [] then none
  else
    let fa := pickL (pools ft) d.faPick emptyStr
    let ta := pickL (pools tt) d.taPick emptyStr
    some (relDoc mid cfg i fa ta d.ip)

/-- `generate_relationships`: `total_relationships` draws, each either
skipped or emitting one relationship document. -/
def generateRelationships (total : ℕ) (pools : AssetTag → List String)
    (o : RelOracle) (mid : String) : List Doc :=
  (List.range total).filterMap (fun i => drawRel pools mid i (o i))

/-! ### Compound-key transforms of `generate_payload` -/

/-- Asset transform: move `modelId` and `id` into a compound `_id`
object, then copy every other top-level field in order. -/
def transformAsset (a : Doc) : Doc :=
  ("_id", .obj [("modelId", jGet a ("modelId")), ("id", jGet a ("id"))]) ::
    a.filter (fun kv => !(kv.1 == "modelId" || kv.1 == "id"))

/-- `{k: v for k, v in value.items() if k != "assetId"}` on an object
value (generated relationships always hold objects here). -/
def dropAssetId (v : JVal) : List (String × JVal) :=
  match v with
  | .obj l => l.filter (fun kv => kv.1 != "assetId")
  | _ => []

/-- Relationship transform: move `modelId`, `id`, `from.assetId` and
`to.assetId` into the compound `_id`; keep a `from`/`to` field only when
sub-attributes other than `assetId` remain; copy everything else. -/
def transformRel (r : Doc) : Doc :=
  ("_id", .obj [("modelId", jGet r ("modelId")), ("id", jGet r ("id")),
    ("fromAssetId", jGet2 r ("from") ("assetId")),
    ("toAssetId", jGet2 r ("to") ("assetId"))]) ::
    r.filterMap (fun kv =>
      if kv.1 == "modelId" || kv.1 == "id" then none
      else if kv.1 == "from" then
        let fc := dropAssetId kv.2
        if fc.isEmpty then none else some ("from", .obj fc)
      else if kv.1 == "to" then
        let tc := dropAssetId kv.2
        if tc.isEmpty then none else some ("to", .obj tc)
      else some kv)

/-! ### Concrete sample inputs used by witnesses and counterexamples -/

def zeroDraws : Draws :=
  ⟨0, 0, 0, 0, 0, 0, false, 0, 0, 0, 0, 0, (0, 0, 0), (0, 0, 0), emptyStr⟩

def zeroAssetOracle : AssetOracle := fun _ _ => zeroDraws

def zeroRelOracle : RelOracle := fun _ => ⟨0, 0, 0, 0, 0, (0, 0, 0)⟩

def mid0 : String := "model-test"

def emptyPools : AssetTag → List String := fun _ => []

def sampleId : String := "a-000000"

def samplePools : AssetTag → List String := fun _ => [sampleId]

/-! ### General structural lemmas -/

/-- The number of emitted assets is exactly the sum of the allocated
per-type counts. -/
theorem length_generateAssets (total : ℕ) (o : AssetOracle) (mid : String) :
    (generateAssets total o mid).length = allocTotal total := by
  unfold generateAssets allocTotal
  induction tagOrder with
  | nil => rfl
  | cons x t ih => simp [List.flatMap_cons, ih]

/-! ### Claims about the proportional allocation -/

/-- C2 counterexample: requesting 9 assets allocates 10 (walls 2,
furniture 2, the other six raised from 0 to 1), so the sum of the
per-type counts exceeds the requested total. -/
theorem allocTotal_nine_exceeds_requested : ¬ allocTotal 9 ≤ 9 := by decide

/-- C2 (amended): the sum of the per-type counts is at most the
requested total plus the number of types whose floored proportional
count is zero; only the floor-to-1 raise can push the sum above the
requested total. -/
theorem allocTotal_le_requested_add_zeroFloors (n : ℕ) :
    allocTotal n ≤ n + zeroFloorCount n := by
  have h1 := sum_allocCount_le n tagOrder
  have h2 := sum_floor_le n
  unfold allocTotal zeroFloorCount
  omega

/-- C3 counterexample: requesting 3 assets against the 8-type catalogue
emits 0 assets, not 3 — every floored count is 0 and the floor-to-1 rule
requires the total to be at least 8. -/
theorem generateAssets_three_not_three :
    ¬ (generateAssets 3 zeroAssetOracle mid0).length = 3 := by
  rw [length_generateAssets]
  decide

/-- C3 (amended): requesting totalAssets=3 against the 8-type catalogue
allocates zero to every type (the floor-to-1 rule does not fire because
3 < 8), so no assets are emitted. -/
theorem generateAssets_three_empty (o : AssetOracle) (mid : String) :
    generateAssets 3 o mid = [] ∧ ∀ t, allocCount 3 t = 0 := by
  have hz : ∀ t, allocCount 3 t = 0 := by decide
  refine ⟨?_, hz⟩
  unfold generateAssets
  induction tagOrder with
  | nil => rfl
  | cons x t ih => simp [List.flatMap_cons, ih, hz]

/-- C4: whenever the requested total is at least the number of catalogue
types, every type's allocated count is at least 1 (a zero floored count
is raised to 1). -/
theorem allocCount_pos_of_requested_ge_numTypes (n : ℕ)
    (h : tagOrder.length ≤ n) (t : AssetTag) : 1 ≤ allocCount n t := by
  have hx : allocCount n t =
      if n * typeCount t / totalDefault = 0 ∧ tagOrder.length ≤ n then 1
      else n * typeCount t / totalDefault := rfl
  rw [hx]
  by_cases hc : n * typeCount t / totalDefault = 0
  · rw [if_pos ⟨hc, h⟩]
  · rw [if_neg (fun hcontra => hc hcontra.1)]
    exact Nat.one_le_iff_ne_zero.mpr hc

/-- C4 witness at the boundary total 8. -/
theorem allocCount_pos_of_requested_ge_numTypes_witness :
    tagOrder.length ≤ 8 ∧ 1 ≤ allocCount 8 AssetTag.doors :=
  ⟨by decide, allocCount_pos_of_requested_ge_numTypes 8 (by decide) AssetTag.doors⟩

/-- C9: for every requested total between 1 and 4, no assets are emitted
and every per-type id pool stays empty — the largest weight is 0.23, so
every floored count is 0, and the floor-to-1 rule needs a total of at
least 8. -/
theorem generateAssets_small_total_empty (n : ℕ) (o : AssetOracle)
    (mid : String) (h1 : 1 ≤ n) (h2 : n ≤ 4) :
    generateAssets n o mid = [] ∧ ∀ t, poolOf n t = [] := by
  have hz : ∀ t, allocCount n t = 0 := by
    interval_cases n <;> decide
  constructor
  · unfold generateAssets
    induction tagOrder with
    | nil => rfl
    | cons x t ih => simp [List.flatMap_cons, ih, hz]
  · intro t
    unfold poolOf
    rw [hz t]
    rfl

/-- C9 witness at requested total 2. -/
theorem generateAssets_small_total_empty_witness :
    generateAssets 2 zeroAssetOracle mid0 = [] ∧ ∀ t, poolOf 2 t = [] :=
  generateAssets_small_total_empty 2 zeroAssetOracle mid0 (by decide) (by decide)

/-! ### Claims about the relationship sampler -/

theorem pickL_singleton {α : Type} (x d : α) (k : ℕ) : pickL [x] k d = x := by
  unfold pickL
  simp [Nat.mod_one]

theorem relConfigs_ne_nil : relConfigs ≠ [] := by simp [relConfigs]

theorem chosenCfg_mem (d : RelDraws) : chosenCfg d ∈ relConfigs :=
  pickL_mem _ _ _ relConfigs_ne_nil

theorem mem_relConfigs_fromTypes_ne_nil {cfg : RelConfig}
    (h : cfg ∈ relConfigs) : cfg.fromTypes ≠ [] := by
  fin_cases h <;> decide

theorem mem_relConfigs_toTypes_ne_nil {cfg : RelConfig}
    (h : cfg ∈ relConfigs) : cfg.toTypes ≠ [] := by
  fin_cases h <;> decide

/-- A draw whose chosen from- or to-pool is empty is skipped. -/
theorem drawRel_eq_none {pools : AssetTag → List String} {mid : String}
    {i : ℕ} {d : RelDraws}
    (h : pools (chosenFromType d) = [] ∨ pools (chosenToType d) = []) :
    drawRel pools mid i d = none :=
  if_pos h

/-- Shape of an emitted draw: both chosen pools are nonempty and the
document is the literal `relDoc` of the chosen category, draw index and
picked endpoint ids. -/
theorem drawRel_eq_some {pools : AssetTag → List String} {mid : String}
    {i : ℕ} {d : RelDraws} {r : Doc} (h : drawRel pools mid i d = some r) :
    pools (chosenFromType d) ≠ [] ∧ pools (chosenToType d) ≠ [] ∧
      r = relDoc mid (chosenCfg d) i
        (pickL (pools (chosenFromType d)) d.faPick emptyStr)
        (pickL (pools (chosenToType d)) d.taPick emptyStr) d.ip := by
  unfold drawRel at h
  by_cases hemp : pools (chosenFromType d) = [] ∨ pools (chosenToType d) = []
  · rw [if_pos hemp] at h
    exact absurd h (by simp)
  · rw [if_neg hemp] at h
    push_neg at hemp
    exact ⟨hemp.1, hemp.2, (Option.some.inj h).symm⟩

/-- C1: every emitted relationship carries the relationship type of a
catalogue category, and its `from.assetId` (resp. `to.assetId`) is an
element of the id pool of one of that category's allowed from-types
(resp. to-types) — no dangling references. -/
theorem generateRelationships_referential_integrity
    (total : ℕ) (pools : AssetTag → List String) (o : RelOracle)
    (mid : String) (r : Doc)
    (hr : r ∈ generateRelationships total pools o mid) :
    ∃ cfg ∈ relConfigs,
      jGet3 r ("attributes") ("application") ("relationshipType") =
        .str cfg.ctype ∧
      (∃ ft ∈ cfg.fromTypes, ∃ fa ∈ pools ft,
        jGet2 r ("from") ("assetId") = .str fa) ∧
      (∃ tt ∈ cfg.toTypes, ∃ ta ∈ pools tt,
        jGet2 r ("to") ("assetId") = .str ta) := by
  unfold generateRelationships at hr
  rw [List.mem_filterMap] at hr
  obtain ⟨i, _, hdraw⟩ := hr
  obtain ⟨hf, ht, hrel⟩ := drawRel_eq_some hdraw
  subst hrel
  refine ⟨chosenCfg (o i), chosenCfg_mem (o i), rfl, ?_, ?_⟩
  · exact ⟨chosenFromType (o i),
      pickL_mem _ _ _ (mem_relConfigs_fromTypes_ne_nil (chosenCfg_mem (o i))),
      pickL (pools (chosenFromType (o i))) (o i).faPick emptyStr,
      pickL_mem _ _ _ hf, rfl⟩
  · exact ⟨chosenToType (o i),
      pickL_mem _ _ _ (mem_relConfigs_toTypes_ne_nil (chosenCfg_mem (o i))),
      pickL (pools (chosenToType (o i))) (o i).taPick emptyStr,
      pickL_mem _ _ _ ht, rfl⟩

/-- C1 witness: a concrete one-draw run with singleton pools emits a
relationship satisfying the integrity property. -/
theorem generateRelationships_referential_integrity_witness :
    ∃ cfg ∈ relConfigs,
      jGet3 ((generateRelationships 1 samplePools zeroRelOracle mid0).head!)
        ("attributes") ("application") ("relationshipType") =
        .str cfg.ctype ∧
      (∃ ft ∈ cfg.fromTypes, ∃ fa ∈ samplePools ft,
        jGet2 ((generateRelationships 1 samplePools zeroRelOracle mid0).head!)
          ("from") ("assetId") = .str fa) ∧
      (∃ tt ∈ cfg.toTypes, ∃ ta ∈ samplePools tt,
        jGet2 ((generateRelationships 1 samplePools zeroRelOracle mid0).head!)
          ("to") ("assetId") = .str ta) :=
  generateRelationships_referential_integrity 1 samplePools zeroRelOracle mid0 _
    (List.head!_mem_self (List.ne_nil_of_length_pos (by decide)))

/-- C6: the emitted relationship count never exceeds the number of
draws; a draw whose chosen from- or to-pool is empty emits nothing (no
retry, no error); an emitted relationship's id is numbered by its draw
index, so skipped draws leave gaps; and in particular a `hosted` draw
made while the walls pool is empty emits nothing. -/
theorem generateRelationships_skip_and_gaps
    (total : ℕ) (pools : AssetTag → List String) (o : RelOracle)
    (mid : String) :
    (generateRelationships total pools o mid).length ≤ total ∧
    (∀ i, pools (chosenFromType (o i)) = [] ∨ pools (chosenToType (o i)) = [] →
      drawRel pools mid i (o i) = none) ∧
    (∀ i r, drawRel pools mid i (o i) = some r →
      jGet r ("id") =
        .str ("rel-" ++ (chosenCfg (o i)).ctype ++ "-" ++ pad6 i)) ∧
    (∀ i, (chosenCfg (o i)).ctype = "hosted" → pools AssetTag.walls = [] →
      drawRel pools mid i (o i) = none) := by
  refine ⟨?_, ?_, ?_, ?_⟩
  · unfold generateRelationships
    calc (List.filterMap _ (List.range total)).length
        ≤ (List.range total).length := List.length_filterMap_le _ _
      _ = total := List.length_range total
  · intro i h
    exact drawRel_eq_none h
  · intro i r h
    obtain ⟨_, _, hrel⟩ := drawRel_eq_some h
    subst hrel
    rfl
  · intro i hh hw
    have hcfg := chosenCfg_mem (o i)
    have htt : (chosenCfg (o i)).toTypes = [AssetTag.walls] := by
      simp only [relConfigs, List.mem_cons, List.not_mem_nil, or_false] at hcfg
      rcases hcfg with h1 | h1 | h1 | h1 <;> rw [h1] at hh ⊢ <;>
        first
        | rfl
        | exact absurd hh (by decide)
    have h2 : chosenToType (o i) = AssetTag.walls := by
      unfold chosenToType
      rw [htt, pickL_singleton]
    refine drawRel_eq_none (Or.inr ?_)
    rw [h2]
    exact hw

/-- C6 witness: two draws against empty pools emit nothing (both the
empty-pool skip and the hosted-with-empty-walls scenario), and with a
singleton pool the emitted document of draw 0 carries the draw-indexed
id. -/
theorem generateRelationships_skip_and_gaps_witness :
    (generateRelationships 2 emptyPools zeroRelOracle mid0).length ≤ 2 ∧
    drawRel emptyPools mid0 0 (zeroRelOracle 0) = none ∧
    drawRel emptyPools mid0 1 (zeroRelOracle 1) = none ∧
    jGet (relDoc mid0 (chosenCfg (zeroRelOracle 0)) 0 sampleId sampleId
        ((0 : ℚ), (0 : ℚ), (0 : ℚ))) ("id") =
      .str ("rel-" ++ (chosenCfg (zeroRelOracle 0)).ctype ++ "-" ++ pad6 0) :=
  ⟨(generateRelationships_skip_and_gaps 2 emptyPools zeroRelOracle mid0).1,
   (generateRelationships_skip_and_gaps 2 emptyPools zeroRelOracle mid0).2.1 0
     (Or.inl rfl),
   (generateRelationships_skip_and_gaps 2 emptyPools zeroRelOracle mid0).2.2.2 1
     rfl rfl,
   (generateRelationships_skip_and_gaps 2 samplePools zeroRelOracle mid0).2.2.1 0
     _ rfl⟩

/-! ### Claims about the compound-key transform -/

/-- Every asset built by the type dispatch has the shared top-level
envelope. -/
theorem buildAsset_eq_envelope (mid : String) (t : AssetTag) (i : ℕ)
    (d : Draws) :
    ∃ aid ty lv uid comps,
      buildAsset mid t i d = assetEnvelope mid aid ty lv uid comps := by
  cases t <;> exact ⟨_, _, _, _, _, rfl⟩

/-- Decomposition of membership in a generated asset list. -/
theorem mem_generateAssets {total : ℕ} {oA : AssetOracle} {mid : String}
    {a : Doc} (h : a ∈ generateAssets total oA mid) :
    ∃ t ∈ tagOrder, ∃ i < allocCount total t,
      a = buildAsset mid t i (oA t i) := by
  unfold generateAssets at h
  rw [List.mem_flatMap] at h
  obtain ⟨t, ht, hmem⟩ := h
  rw [List.mem_map] at hmem
  obtain ⟨i, hi, rfl⟩ := hmem
  exact ⟨t, ht, i, List.mem_range.mp hi, rfl⟩

/-- C5: the compound-key transform is information-preserving.  For every
generated asset, `_id` holds exactly the original `(modelId, id)` pair —
both of which are scalar strings on the original document — and the
transformed document minus `_id` is the original minus its `modelId` and
`id` fields, in order.  For every generated relationship, `_id`
additionally holds the original `from.assetId` and `to.assetId`, and the
transformed document minus `_id` is the original minus the four
relocated fields. -/
theorem transform_preserves_relocated_fields (total totalR : ℕ)
    (oA : AssetOracle) (pools : AssetTag → List String) (oR : RelOracle)
    (mid : String) :
    (∀ a ∈ generateAssets total oA mid,
      jGet (transformAsset a) ("_id") =
        .obj [("modelId", jGet a ("modelId")), ("id", jGet a ("id"))] ∧
      (∃ aid : String,
        jGet a ("modelId") = .str mid ∧ jGet a ("id") = .str aid) ∧
      (transformAsset a).filter (fun kv => kv.1 != "_id") =
        a.filter (fun kv => !(kv.1 == "modelId" || kv.1 == "id"))) ∧
    (∀ r ∈ generateRelationships totalR pools oR mid,
      jGet (transformRel r) ("_id") =
        .obj [("modelId", jGet r ("modelId")), ("id", jGet r ("id")),
          ("fromAssetId", jGet2 r ("from") ("assetId")),
          ("toAssetId", jGet2 r ("to") ("assetId"))] ∧
      (∃ rid fa ta : String,
        jGet r ("modelId") = .str mid ∧ jGet r ("id") = .str rid ∧
        jGet2 r ("from") ("assetId") = .str fa ∧
        jGet2 r ("to") ("assetId") = .str ta) ∧
      (transformRel r).filter (fun kv => kv.1 != "_id") =
        r.filter (fun kv =>
          !(kv.1 == "modelId" || kv.1 == "id" || kv.1 == "from" ||
            kv.1 == "to"))) := by
  constructor
  · intro a ha
    obtain ⟨t, _, i, _, rfl⟩ := mem_generateAssets ha
    obtain ⟨aid, ty, lv, uid, comps, heq⟩ := buildAsset_eq_envelope mid t i (oA t i)
    rw [heq]
    exact ⟨rfl, ⟨aid, rfl, rfl⟩, rfl⟩
  · intro r hr
    unfold generateRelationships at hr
    rw [List.mem_filterMap] at hr
    obtain ⟨i, _, hdraw⟩ := hr
    obtain ⟨_, _, rfl⟩ := drawRel_eq_some hdraw
    exact ⟨rfl, ⟨_, _, _, rfl, rfl, rfl, rfl⟩, rfl⟩

/-- C5 witness: the transform facts at a concrete generated asset (run
with 5 requested assets) and a concrete emitted relationship. -/
theorem transform_preserves_relocated_fields_witness :
    (jGet (transformAsset ((generateAssets 5 zeroAssetOracle mid0).head!))
        ("_id") =
      .obj [("modelId",
        jGet ((generateAssets 5 zeroAssetOracle mid0).head!) ("modelId")),
        ("id", jGet ((generateAssets 5 zeroAssetOracle mid0).head!) ("id"))] ∧
      (∃ aid : String,
        jGet ((generateAssets 5 zeroAssetOracle mid0).head!) ("modelId") =
          .str mid0 ∧
        jGet ((generateAssets 5 zeroAssetOracle mid0).head!) ("id") =
          .str aid) ∧
      (transformAsset ((generateAssets 5 zeroAssetOracle mid0).head!)).filter
          (fun kv => kv.1 != "_id") =
        ((generateAssets 5 zeroAssetOracle mid0).head!).filter
          (fun kv => !(kv.1 == "modelId" || kv.1 == "id"))) ∧
    (jGet (transformRel
        ((generateRelationships 1 samplePools zeroRelOracle mid0).head!))
        ("_id") =
      .obj [("modelId",
        jGet ((generateRelationships 1 samplePools zeroRelOracle mid0).head!)
          ("modelId")),
        ("id",
          jGet ((generateRelationships 1 samplePools zeroRelOracle mid0).head!)
            ("id")),
        ("fromAssetId",
          jGet2 ((generateRelationships 1 samplePools zeroRelOracle mid0).head!)
            ("from") ("assetId")),
        ("toAssetId",
          jGet2 ((generateRelationships 1 samplePools zeroRelOracle mid0).head!)
            ("to") ("assetId"))] ∧
      (∃ rid fa ta : String,
        jGet ((generateRelationships 1 samplePools zeroRelOracle mid0).head!)
          ("modelId") = .str mid0 ∧
        jGet ((generateRelationships 1 samplePools zeroRelOracle mid0).head!)
          ("id") = .str rid ∧
        jGet2 ((generateRelationships 1 samplePools zeroRelOracle mid0).head!)
          ("from") ("assetId") = .str fa ∧
        jGet2 ((generateRelationships 1 samplePools zeroRelOracle mid0).head!)
          ("to") ("assetId") = .str ta) ∧
      (transformRel
          ((generateRelationships 1 samplePools zeroRelOracle mid0).head!)).filter
          (fun kv => kv.1 != "_id") =
        ((generateRelationships 1 samplePools zeroRelOracle mid0).head!).filter
          (fun kv =>
            !(kv.1 == "modelId" || kv.1 == "id" || kv.1 == "from" ||
              kv.1 == "to"))) :=
  ⟨(transform_preserves_relocated_fields 5 1 zeroAssetOracle samplePools
      zeroRelOracle mid0).1 _
      (List.head!_mem_self (List.ne_nil_of_length_pos (by decide))),
   (transform_preserves_relocated_fields 5 1 zeroAssetOracle samplePools
      zeroRelOracle mid0).2 _
      (List.head!_mem_self (List.ne_nil_of_length_pos (by decide)))⟩

/-- C10: the transformed form of every generated relationship has no
top-level `from` and no top-level `to` field: the generated endpoint
objects hold only an `assetId`, which the transform strips, and an
endpoint field is kept only when other sub-attributes remain. -/
theorem transformRel_no_from_to (total : ℕ) (pools : AssetTag → List String)
    (o : RelOracle) (mid : String) :
    ∀ r ∈ generateRelationships total pools o mid,
      lookupKey (transformRel r) ("from") = none ∧
      lookupKey (transformRel r) ("to") = none := by
  intro r hr
  unfold generateRelationships at hr
  rw [List.mem_filterMap] at hr
  obtain ⟨i, _, hdraw⟩ := hr
  obtain ⟨_, _, rfl⟩ := drawRel_eq_some hdraw
  exact ⟨rfl, rfl⟩

/-! ### Claim about the wall builder -/

/-- The wall family pick lands on one of the two catalogue families. -/
theorem wallFamily_cases (k : ℕ) :
    pickL (familiesOf .walls) k (emptyStr, []) =
      ("Exterior Wall", ["Brick on CMU", "Concrete - 12\"", "Metal Panel"]) ∨
    pickL (familiesOf .walls) k (emptyStr, []) =
      ("Interior Wall", ["Generic - 6\"", "Generic - 4\"", "Gypsum - 5\""]) := by
  rcases Nat.mod_two_eq_zero_or_one k with h | h
  · left
    simp [pickL, familiesOf, h]
  · right
    simp [pickL, familiesOf, h]

/-- C8: for every generated wall, the chosen family is one of the two
catalogue families; the family contains `"Interior"` exactly when it is
the interior one; the emitted bounding-box max point is
`(x+length, y+thickness, height)` with thickness `1/2` when the family
contains `"Interior"` and `3/4` otherwise; and the emitted property-bag
values are `area = length * height` and `volume = area * thickness`,
each rounded to two decimals. -/
theorem generateWall_thickness_area_volume (mid : String) (i : ℕ) (d : Draws) :
    ((pickL (familiesOf .walls) d.famPick (emptyStr, [])).1 =
        "Exterior Wall" ∨
      (pickL (familiesOf .walls) d.famPick (emptyStr, [])).1 =
        "Interior Wall") ∧
    (strContains (pickL (familiesOf .walls) d.famPick (emptyStr, [])).1
        ("Interior") = true ↔
      (pickL (familiesOf .walls) d.famPick (emptyStr, [])).1 =
        "Interior Wall") ∧
    jPath (.obj (generateWall mid i d))
        ["components", "insertions", "geometry", "staticChildren",
         "maxPoint", "value"] =
      .arr [.num (d.u1 + d.u3),
        .num (d.u2 +
          (if strContains
              (pickL (familiesOf .walls) d.famPick (emptyStr, [])).1
              ("Interior")
            then (1 : ℚ)/2 else 3/4)),
        .num d.u4] ∧
    jPath (.obj (generateWall mid i d))
        ["components", "insertions", "properties", "staticChildren",
         "properties", "insertions", "area", "staticChildren", "value",
         "value"] =
      .num (round2 (d.u3 * d.u4)) ∧
    jPath (.obj (generateWall mid i d))
        ["components", "insertions", "properties", "staticChildren",
         "properties", "insertions", "volume", "staticChildren", "value",
         "value"] =
      .num (round2 (d.u3 * d.u4 *
        (if strContains
            (pickL (familiesOf .walls) d.famPick (emptyStr, [])).1
            ("Interior")
          then (1 : ℚ)/2 else 3/4))) := by
  refine ⟨?_, ?_, rfl, rfl, rfl⟩
  · rcases wallFamily_cases d.famPick with h | h <;> rw [h]
    · left
      rfl
    · right
      rfl
  · rcases wallFamily_cases d.famPick with h | h <;> rw [h] <;> decide

/-! ### Claim about id uniqueness -/

/-- The id field of a document. -/
def docId (a : Doc) : JVal := jGet a ("id")

theorem buildAsset_id (mid : String) (t : AssetTag) (i : ℕ) (d : Draws) :
    docId (buildAsset mid t i d) = .str (idPrefix t ++ "-" ++ pad6 i) := by
  cases t <;> rfl

theorem docId_relDoc (mid : String) (cfg : RelConfig) (i : ℕ) (fa ta : String)
    (ip : ℚ × ℚ × ℚ) :
    docId (relDoc mid cfg i fa ta ip) =
      .str ("rel-" ++ cfg.ctype ++ "-" ++ pad6 i) := rfl

theorem takeWhile_append_cons {α : Type} (p : α → Bool) (l1 : List α) (x : α)
    (l2 : List α) (h1 : ∀ c ∈ l1, p c = true) (hx : p x = false) :
    (l1 ++ x :: l2).takeWhile p = l1 := by
  induction l1 with
  | nil => simp [List.takeWhile_cons, hx]
  | cons a t ih =>
      have ha : p a = true := h1 a (List.mem_cons_self _ _)
      simp only [List.cons_append, List.takeWhile_cons, ha, if_true]
      rw [ih (fun c hc => h1 c (List.mem_cons_of_mem _ hc))]

theorem dropWhile_append_cons {α : Type} (p : α → Bool) (l1 : List α) (x : α)
    (l2 : List α) (h1 : ∀ c ∈ l1, p c = true) (hx : p x = false) :
    (l1 ++ x :: l2).dropWhile p = x :: l2 := by
  induction l1 with
  | nil => simp [List.dropWhile_cons, hx]
  | cons a t ih =>
      have ha : p a = true := h1 a (List.mem_cons_self _ _)
      simp only [List.cons_append, List.dropWhile_cons, ha, if_true]
      exact ih (fun c hc => h1 c (List.mem_cons_of_mem _ hc))

/-- The part of an asset id before the first hyphen. -/
def decodePrefix (s : String) : String :=
  String.mk (s.data.takeWhile (fun c => c != '-'))

/-- The numeral after the first hyphen of an asset id. -/
def decodeIndex (s : String) : ℕ :=
  toNum ((s.data.dropWhile (fun c => c != '-')).tail)

def decodeAssetId (v : JVal) : String × ℕ :=
  match v with
  | .str s => (decodePrefix s, decodeIndex s)
  | _ => (emptyStr, 0)

theorem idPrefix_no_dash (t : AssetTag) :
    ∀ c ∈ (idPrefix t).data, (c != '-') = true := by
  cases t <;> decide

theorem decodeAssetId_correct (t : AssetTag) (i : ℕ) :
    decodeAssetId (.str (idPrefix t ++ "-" ++ pad6 i)) = (idPrefix t, i) := by
  have e1 : (idPrefix t ++ "-" ++ pad6 i).data =
      ((idPrefix t).data ++ ['-']) ++ padChars i := rfl
  have hdata : (idPrefix t ++ "-" ++ pad6 i).data =
      (idPrefix t).data ++ '-' :: padChars i := by
    rw [e1, List.append_assoc]
    rfl
  show (decodePrefix _, decodeIndex _) = _
  unfold decodePrefix decodeIndex
  rw [hdata,
    takeWhile_append_cons _ _ '-' _ (idPrefix_no_dash t) rfl,
    dropWhile_append_cons _ _ '-' _ (idPrefix_no_dash t) rfl,
    List.tail_cons, toNum_padChars]

theorem idPrefix_injective : ∀ a b : AssetTag, idPrefix a = idPrefix b → a = b := by
  decide

theorem assetIdStr_inj {t1 t2 : AssetTag} {i1 i2 : ℕ}
    (h : (JVal.str (idPrefix t1 ++ "-" ++ pad6 i1)) =
      .str (idPrefix t2 ++ "-" ++ pad6 i2)) :
    t1 = t2 ∧ i1 = i2 := by
  have hd := congrArg decodeAssetId h
  rw [decodeAssetId_correct, decodeAssetId_correct] at hd
  have hp : idPrefix t1 = idPrefix t2 := congrArg Prod.fst hd
  have hi : i1 = i2 := congrArg Prod.snd hd
  exact ⟨idPrefix_injective _ _ hp, hi⟩

theorem map_docId_generateAssets (total : ℕ) (oA : AssetOracle) (mid : String) :
    (generateAssets total oA mid).map docId =
      tagOrder.flatMap (fun t => (List.range (allocCount total t)).map
        (fun i => JVal.str (idPrefix t ++ "-" ++ pad6 i))) := by
  unfold generateAssets
  rw [List.map_flatMap]
  congr 1
  funext t
  rw [List.map_map]
  congr 1
  funext i
  exact buildAsset_id mid t i (oA t i)

theorem nodup_assetIds (total : ℕ) (oA : AssetOracle) (mid : String) :
    ((generateAssets total oA mid).map docId).Nodup := by
  rw [map_docId_generateAssets]
  refine List.nodup_flatMap.mpr ⟨?_, ?_⟩
  · intro t _
    refine List.Nodup.map ?_ (List.nodup_range _)
    intro i1 i2 heq
    exact (assetIdStr_inj heq).2
  · have hnd : tagOrder.Nodup := by decide
    refine hnd.imp ?_
    intro t1 t2 hne
    intro v hv1 hv2
    rw [List.mem_map] at hv1 hv2
    obtain ⟨i1, _, rfl⟩ := hv1
    obtain ⟨i2, _, he⟩ := hv2
    exact hne ((assetIdStr_inj he.symm).1)

/-- The trailing decimal run of a relationship id, which recovers the
draw index. -/
def relIdIndex (v : JVal) : ℕ :=
  match v with
  | .str s => toNum ((s.data.reverse.takeWhile (fun c => c.isDigit)).reverse)
  | _ => 0

theorem relIdIndex_correct (ct : String) (i : ℕ) :
    relIdIndex (.str ("rel-" ++ ct ++ "-" ++ pad6 i)) = i := by
  have e1 : ("rel-" ++ ct ++ "-" ++ pad6 i).data =
      (("rel-" ++ ct).data ++ ['-']) ++ padChars i := rfl
  have hdata : ("rel-" ++ ct ++ "-" ++ pad6 i).data.reverse =
      (padChars i).reverse ++ '-' :: ("rel-" ++ ct).data.reverse := by
    rw [e1, List.reverse_append, List.reverse_append]
    simp
  show toNum _ = i
  rw [hdata, takeWhile_append_cons _ _ _ _ ?digits rfl, List.reverse_reverse,
    toNum_padChars]
  case digits =>
    intro c hc
    rw [List.mem_reverse] at hc
    exact isDigit_of_mem_padChars i c hc

theorem nodup_relIds (total : ℕ) (pools : AssetTag → List String)
    (oR : RelOracle) (mid : String) :
    ((generateRelationships total pools oR mid).map docId).Nodup := by
  unfold generateRelationships
  rw [List.map_filterMap]
  refine List.Nodup.filterMap ?_ (List.nodup_range _)
  intro a b v hva hvb
  obtain ⟨r1, hr1, hd1⟩ := Option.map_eq_some'.mp hva
  obtain ⟨r2, hr2, hd2⟩ := Option.map_eq_some'.mp hvb
  obtain ⟨_, _, rfl⟩ := drawRel_eq_some hr1
  obtain ⟨_, _, rfl⟩ := drawRel_eq_some hr2
  have h1 : relIdIndex v = a := by
    rw [← hd1]
    exact relIdIndex_correct _ a
  have h2 : relIdIndex v = b := by
    rw [← hd2]
    exact relIdIndex_correct _ b
  rw [← h1, ← h2]

/-- C7: within one generation run no two assets share an id (indices are
unique per type and the eight id prefixes are distinct) and no two
relationships share an id (the draw index embedded in `rel-{category}-{i}`
is unique across draws). -/
theorem ids_unique_within_run (totalA totalR : ℕ) (oA : AssetOracle)
    (pools : AssetTag → List String) (oR : RelOracle) (mid : String) :
    ((generateAssets totalA oA mid).map docId).Nodup ∧
    ((generateRelationships totalR pools oR mid).map docId).Nodup :=
  ⟨nodup_assetIds totalA oA mid, nodup_relIds totalR pools oR mid⟩

/-- C10 witness at a concrete emitted relationship. -/
theorem transformRel_no_from_to_witness :
    lookupKey (transformRel
      ((generateRelationships 1 samplePools zeroRelOracle mid0).head!))
      ("from") = none ∧
    lookupKey (transformRel
      ((generateRelationships 1 samplePools zeroRelOracle mid0).head!))
      ("to") = none :=
  transformRel_no_from_to 1 samplePools zeroRelOracle mid0 _
    (List.head!_mem_self (List.ne_nil_of_length_pos (by decide)))

end AEC
